import Mathlib

/-!
Verification of the authentication and session-identity core of the
balkanid-bookstore backend (Go, `backend/routes/handlers.go`), together
with the cart handlers the claims touch.  Handlers are embedded as pure
Lean functions over an explicit database state (a list of user rows /
cart rows); external collaborators that are not part of the repository
(bcrypt, HMAC signing, the JWT middleware, GORM primary-key assignment)
are modelled from the specification, as documented on each definition.
-/

namespace Bookstore

/-- Environment model for `os.Getenv`: a partial map from variable names
to values.  Go's `os.Getenv` returns the empty string when the variable
is unset, which `osGetenv` reproduces. -/
def Env := String → Option String

/-- Embeds Go `os.Getenv`: the unset case collapses to the empty string. -/
def osGetenv (env : Env) (k : String) : String := (env k).getD ""

/-- Modelled from the spec: the bcrypt key-derivation inside
`golang.org/x/crypto/bcrypt` (an external library, not repository code).
The spec asks only that the hash be verifiable and salted; the KDF is
modelled as the injective pair of salt and password characters, so that
verification succeeds exactly on the original plaintext. -/
def bcryptKDF (salt : Nat) (password : String) : Nat × List Char :=
  (salt, password.data)

/-- A stored bcrypt hash record: cost factor, salt, and derived key, as
laid out by the bcrypt output format. -/
structure BcryptHash where
  cost : Nat
  salt : Nat
  digest : Nat × List Char
deriving DecidableEq

/-- Modelled from the spec: `bcrypt.GenerateFromPassword(password, cost)`.
The internally generated random salt is passed explicitly. -/
def GenerateFromPassword (password : String) (cost : Nat) (salt : Nat) : BcryptHash :=
  { cost := cost, salt := salt, digest := bcryptKDF salt password }

/-- Modelled from the spec: `bcrypt.CompareHashAndPassword(hash, password)`,
returning true exactly when re-deriving the key from the stored salt and
the supplied plaintext reproduces the stored digest. -/
def CompareHashAndPassword (hash : BcryptHash) (password : String) : Bool :=
  bcryptKDF hash.salt password == hash.digest

/-- A value stored in a JWT claims map: the source stores a Go `uint`
(the user id) and a Unix timestamp (`exp`). -/
inductive ClaimValue where
  | uintVal (n : Nat)
  | intVal (t : Int)
deriving DecidableEq

/-- Embeds `jwt.MapClaims`: an association list from claim name to value. -/
abbrev MapClaims := List (String × ClaimValue)

/-- Embeds assignment `payload[k] = v` on a `jwt.MapClaims` map:
overwrite an existing key, otherwise append. -/
def setClaim (m : MapClaims) (k : String) (v : ClaimValue) : MapClaims :=
  if (m.lookup k).isSome then
    m.map (fun p => if p.1 = k then (k, v) else p)
  else
    m ++ [(k, v)]

/-- Embeds reading `claims[k]` from a `jwt.MapClaims` map. -/
def getClaim (m : MapClaims) (k : String) : Option ClaimValue := m.lookup k

/-- Modelled from the spec: an HMAC-class symmetric signature over the
payload.  The MAC is modelled as the injective pair of signing key and
payload, so a signature verifies exactly when it was produced with the
same key over the same payload. -/
def hmacSign (key : String) (payload : MapClaims) : String × MapClaims :=
  (key, payload)

/-- A signed token as produced by `token.SignedString`: the claims
payload together with its signature. -/
structure SignedToken where
  payload : MapClaims
  signature : String × MapClaims
deriving DecidableEq

/-- Embeds `CreateToken` (handlers.go lines 589-600): payload gets
`user_id` and `exp = now + 24h`, then the token is signed with
`os.Getenv("JWT_SECRET")`.  `now` stands for `time.Now().Unix()`. -/
def CreateToken (env : Env) (now : Int) (userID : Nat) : SignedToken :=
  let payload : MapClaims :=
    setClaim (setClaim [] "user_id" (ClaimValue.uintVal userID))
      "exp" (ClaimValue.intVal (now + 24 * 3600))
  { payload := payload, signature := hmacSign (osGetenv env "JWT_SECRET") payload }

/-- The verifier's failure taxonomy from the spec's section 4.3. -/
inductive AuthError where
  | missing
  | malformed
  | badSignature
  | expired
deriving DecidableEq

/-- Modelled from the spec: the JWT middleware's verification pass
(signature check, expiry check, claim extraction) that runs before every
protected handler; the middleware itself is not in the repository
sources, only its consumers are.  On success it yields the `user_id`
claim the handlers read via `claims["user_id"]`. -/
def VerifyToken (key : String) (now : Int) (t : SignedToken) : Except AuthError Nat :=
  if t.signature = hmacSign key t.payload then
    match getClaim t.payload "exp" with
    | some (ClaimValue.intVal e) =>
        if e < now then Except.error AuthError.expired
        else
          match getClaim t.payload "user_id" with
          | some (ClaimValue.uintVal u) => Except.ok u
          | _ => Except.error AuthError.malformed
    | _ => Except.error AuthError.malformed
  else Except.error AuthError.badSignature

/-- Modelled from the spec: the `database.User` GORM row (the `database`
package is not under the provided sources; its fields are those the
handlers read and write, matching the spec's Credential record).  `id`
is the auto-generated primary key GORM assigns on `Create`; `userID` is
the separately stored random `UserID` column. -/
structure User where
  id : Nat
  userID : Nat
  firstName : String
  lastName : String
  email : String
  password : BcryptHash
  role : String
  active : Bool
deriving DecidableEq

/-- Embeds `GetDB().Where("email = ?", email).First(&user)`: first row
whose email matches, or none. -/
def firstUserByEmail (db : List User) (email : String) : Option User :=
  db.find? (fun u => u.email == email)

/-- Embeds `GetDB().First(&user, id)`: primary-key lookup. -/
def firstUserByID (db : List User) (id : Nat) : Option User :=
  db.find? (fun u => u.id == id)

/-- Embeds `GetDB().Model(&user).Update("active", b)` reached from the
activate/deactivate handlers: set the `active` column of the row with
the given primary key. -/
def setActive (db : List User) (id : Nat) (b : Bool) : List User :=
  db.map (fun u => if u.id = id then { u with active := b } else u)

/-- Result of a login attempt: the status code and error message of the
JSON error response, or the issued token on success (handlers.go returns
the token in the success body). -/
inductive LoginResult where
  | failure (status : Nat) (message : String)
  | success (token : SignedToken)
deriving DecidableEq

/-- Embeds `LoginHandler` (handlers.go lines 25-79) after body parsing
and input validation: look the user up by email (404 "User not found" on
miss), compare the bcrypt hash (400 "Incorrect password" on mismatch),
otherwise issue a token for `user.ID`. -/
def LoginHandler (db : List User) (env : Env) (now : Int)
    (email password : String) : LoginResult :=
  match firstUserByEmail db email with
  | none => LoginResult.failure 404 "User not found"
  | some user =>
      if CompareHashAndPassword user.password password then
        LoginResult.success (CreateToken env now user.id)
      else
        LoginResult.failure 400 "Incorrect password"

/-- Result of a registration attempt: 409 conflict when the email
exists, otherwise the issued token. -/
inductive RegisterResult where
  | conflict
  | success (token : SignedToken)
deriving DecidableEq

/-- The user row `RegisterHandler` builds and saves: `UserID` is
`rand.Intn(10000)` applied to the generator's draw (modelled as
`randVal % 10000`), the password is bcrypt-hashed with cost 10, and `id`
is the primary key GORM assigns on `Create` (modelled from the spec as
an input, since the `database` package is not in the sources). -/
def newUserRecord (randVal salt assignedID : Nat)
    (firstname lastname email password role : String) : User :=
  { id := assignedID
    userID := randVal % 10000
    firstName := firstname
    lastName := lastname
    email := email
    password := GenerateFromPassword password 10 salt
    role := role
    active := true }

/-- Embeds `RegisterHandler` (handlers.go lines 81-163) after body
parsing and validation: reject when the email already exists, otherwise
store the new row and issue a token for the auto-generated primary key
`newUser.ID` (not for the random `UserID` column).  Returns the response
together with the updated user table. -/
def RegisterHandler (db : List User) (env : Env) (now : Int)
    (randVal salt assignedID : Nat)
    (firstname lastname email password role : String) :
    RegisterResult × List User :=
  match firstUserByEmail db email with
  | some _ => (RegisterResult.conflict, db)
  | none =>
      let newUser := newUserRecord randVal salt assignedID
        firstname lastname email password role
      (RegisterResult.success (CreateToken env now assignedID), db ++ [newUser])

/-- The parsed body of an `UpdateProfile` request: empty string models
an absent field (the handler tests `!= ""` / `len > 0`). -/
structure ProfileUpdate where
  firstName : String
  lastName : String
  email : String
  password : String
deriving DecidableEq

/-- Embeds the field-update section of `UpdateProfile` (handlers.go
lines 395-421): each non-empty field replaces the stored one, and a
non-empty password is bcrypt-hashed with cost 10 before being stored. -/
def UpdateProfileApply (user : User) (upd : ProfileUpdate) (salt : Nat) : User :=
  let u1 := if upd.firstName ≠ "" then { user with firstName := upd.firstName } else user
  let u2 := if upd.lastName ≠ "" then { u1 with lastName := upd.lastName } else u1
  let u3 := if upd.email ≠ "" then { u2 with email := upd.email } else u2
  if upd.password ≠ "" then
    { u3 with password := GenerateFromPassword upd.password 10 salt }
  else u3

/-- Outcome of a protected request through the identity middleware and
`GetUserNameHandler`: an auth failure from the verifier, a 404 when the
subject row is missing, or the user's first name. -/
inductive ProtectedResult where
  | authFailure (e : AuthError)
  | notFound
  | ok (name : String)
deriving DecidableEq

/-- Embeds the body of `GetUserNameHandler` (handlers.go lines 284-303)
once the middleware has supplied the `user_id` claim: primary-key lookup,
then return the first name.  The handler never reads `active`. -/
def GetUserNameHandler (db : List User) (userID : Nat) : ProtectedResult :=
  match firstUserByID db userID with
  | none => ProtectedResult.notFound
  | some u => ProtectedResult.ok u.firstName

/-- The protected-request pipeline for `GetUserNameHandler`: verify the
token, then run the handler on the extracted `user_id`. -/
def protectedGetUserName (key : String) (now : Int) (tok : SignedToken)
    (db : List User) : ProtectedResult :=
  match VerifyToken key now tok with
  | Except.error e => ProtectedResult.authFailure e
  | Except.ok uid => GetUserNameHandler db uid

/-- Modelled from the spec: the `database.CartItem` GORM row, with the
fields the cart handlers read and write (`UserID`, `BookID`, `Quantity`,
`Subtotal`); `Subtotal` is the Go `float64` column, embedded as ℚ. -/
structure CartItem where
  userID : Nat
  bookID : Nat
  quantity : Nat
  subtotal : ℚ
deriving DecidableEq

/-- Embeds the row mutation of `UpdateCartItemQuantityHandler`
(handlers.go lines 774-776): only `Quantity` is assigned before `Save`;
`Subtotal` is not recomputed. -/
def UpdateCartItemQuantityApply (item : CartItem) (newQuantity : Nat) : CartItem :=
  { item with quantity := newQuantity }

/-- Embeds the row produced by `AddToCartHandler` (handlers.go lines
629-678): when the book is already in the cart the quantity is summed
and the subtotal recomputed as quantity times price; otherwise a fresh
row with subtotal quantity times price. -/
def AddToCartApply (existing : Option CartItem) (userID bookID quantity : Nat)
    (price : ℚ) : CartItem :=
  match existing with
  | some item =>
      let item := { item with quantity := item.quantity + quantity }
      { item with subtotal := (item.quantity : ℚ) * price }
  | none =>
      let newItem : CartItem :=
        { userID := userID, bookID := bookID, quantity := quantity, subtotal := 0 }
      { newItem with subtotal := (newItem.quantity : ℚ) * price }

/-! Helper definitions and shared lemmas for the claim theorems. -/

/-- An environment carrying a signing secret. -/
def envWithSecret : Env := fun k => if k = "JWT_SECRET" then some "s" else none

/-- An environment with no variables set, in particular no JWT_SECRET. -/
def emptyEnv : Env := fun _ => none

/-- A concrete user row for witnesses and counterexamples. -/
def demoUser : User :=
  { id := 1
    userID := 7
    firstName := "Ada"
    lastName := "L"
    email := "ada@example.com"
    password := GenerateFromPassword "pw" 10 0
    role := "customer"
    active := true }

/-- The payload built by `CreateToken` is exactly the two-entry map with
`user_id` and `exp`. -/
lemma createToken_payload_eq (env : Env) (now : Int) (u : Nat) :
    (CreateToken env now u).payload
      = [("user_id", ClaimValue.uintVal u),
         ("exp", ClaimValue.intVal (now + 24 * 3600))] := rfl

/-- Primary-key lookup after `setActive` finds the same row up to its
`active` field. -/
lemma firstUserByID_setActive (db : List User) (id : Nat) (b : Bool) (uid : Nat) :
    firstUserByID (setActive db id b) uid
      = Option.map (fun u => if u.id = id then { u with active := b } else u)
          (firstUserByID db uid) := by
  induction db with
  | nil => rfl
  | cons u rest ih =>
      unfold firstUserByID setActive at ih ⊢
      by_cases h : u.id = uid
      · simp [List.find?_cons, h, apply_ite (fun v : User => v.id)]
      · simpa [List.find?_cons, h, apply_ite (fun v : User => v.id)] using ih

/-- The `GetUserNameHandler` body returns the same result on a table
where some row's `active` flag was rewritten: it reads only `firstName`. -/
lemma getUserName_setActive (db : List User) (id : Nat) (b : Bool) (uid : Nat) :
    GetUserNameHandler (setActive db id b) uid = GetUserNameHandler db uid := by
  unfold GetUserNameHandler
  rw [firstUserByID_setActive]
  cases firstUserByID db uid with
  | none => rfl
  | some u =>
      simp [apply_ite (fun v : User => v.firstName)]

/-! Claim theorems. -/

/-- C1 (counterexample): the login failure sub-cases are distinguishable
to the caller.  On a table with one user (email ada@example.com,
password "pw"), an unknown email gets 404 "User not found" while a wrong
password for the existing email gets 400 "Incorrect password", so the
two responses differ — refuting that every authentication-failure
sub-case produces the same generic response. -/
theorem login_generic_failure_refuted :
    LoginHandler [demoUser] envWithSecret 0 "nobody@example.com" "pw"
      = LoginResult.failure 404 "User not found" ∧
    LoginHandler [demoUser] envWithSecret 0 "ada@example.com" "wrong"
      = LoginResult.failure 400 "Incorrect password" ∧
    LoginHandler [demoUser] envWithSecret 0 "nobody@example.com" "pw"
      ≠ LoginHandler [demoUser] envWithSecret 0 "ada@example.com" "wrong" := by
  refine ⟨rfl, rfl, ?_⟩
  decide

/-- C1 (amended): `LoginHandler` reveals which failure sub-case occurred:
whenever the email matches no user it returns 404 "User not found", and
whenever the email matches a user whose bcrypt hash rejects the supplied
password it returns 400 "Incorrect password" — two distinct responses,
so the caller can tell whether an account with that email exists. -/
theorem login_failure_responses_by_subcase (db : List User) (env : Env)
    (now : Int) (email password : String) :
    (firstUserByEmail db email = none →
      LoginHandler db env now email password
        = LoginResult.failure 404 "User not found") ∧
    (∀ u, firstUserByEmail db email = some u →
      CompareHashAndPassword u.password password = false →
      LoginHandler db env now email password
        = LoginResult.failure 400 "Incorrect password") := by
  constructor
  · intro h
    simp [LoginHandler, h]
  · intro u hu hc
    simp [LoginHandler, hu, hc]

/-- C1 (witness): the amended theorem applied at the concrete table. -/
theorem login_failure_responses_by_subcase_witness :
    LoginHandler [demoUser] envWithSecret 0 "nobody@example.com" "pw"
      = LoginResult.failure 404 "User not found" ∧
    LoginHandler [demoUser] envWithSecret 0 "ada@example.com" "wrong"
      = LoginResult.failure 400 "Incorrect password" :=
  ⟨(login_failure_responses_by_subcase [demoUser] envWithSecret 0
      "nobody@example.com" "pw").1 (by decide),
   (login_failure_responses_by_subcase [demoUser] envWithSecret 0
      "ada@example.com" "wrong").2 demoUser (by decide) (by decide)⟩

/-- C2 (counterexample): with no JWT_SECRET in the environment,
`CreateToken` still runs and returns a token signed with the empty-string
key — refuting that absence of the secret is a startup-fatal condition
under which issuance never produces a token signed with an empty key. -/
theorem empty_secret_token_refutes_startup_fatal :
    (CreateToken emptyEnv 0 42).signature.1 = "" ∧
    (CreateToken emptyEnv 0 42).signature
      = hmacSign "" (CreateToken emptyEnv 0 42).payload := ⟨rfl, rfl⟩

/-- C2 (amended): `CreateToken` reads JWT_SECRET from the environment on
every call; when the variable is absent it does not fail but signs the
token with the empty-string key, so a missing secret is a silent
per-request condition, not a startup-fatal one. -/
theorem createToken_empty_key_when_secret_absent (env : Env) (now : Int)
    (u : Nat) (h : env "JWT_SECRET" = none) :
    (CreateToken env now u).signature
      = hmacSign "" (CreateToken env now u).payload := by
  simp [CreateToken, osGetenv, h]

/-- C2 (witness): the amended theorem at the empty environment. -/
theorem createToken_empty_key_when_secret_absent_witness :
    (CreateToken emptyEnv 0 1).signature
      = hmacSign "" (CreateToken emptyEnv 0 1).payload :=
  createToken_empty_key_when_secret_absent emptyEnv 0 1 rfl

/-- C3 (counterexample): the signed payload of the token issued at time
100 for user 42 is exactly the two-entry map with `user_id` and `exp`;
it has no third entry, in particular no issuance-timestamp claim — so
the signed payload does not contain all three of subject, issuedAt and
expiresAt. -/
theorem token_payload_lacks_issuedAt :
    (CreateToken envWithSecret 100 42).payload
      = [("user_id", ClaimValue.uintVal 42),
         ("exp", ClaimValue.intVal 86500)] ∧
    (CreateToken envWithSecret 100 42).payload.length = 2 ∧
    getClaim (CreateToken envWithSecret 100 42).payload "iat" = none := by
  refine ⟨rfl, rfl, ?_⟩
  decide

/-- C3 (amended): for every userID u the signed payload of the token
produced at time `now` contains exactly two claims: the subject
identifier `user_id = u` and the expiry `exp = now + 24h`.  No separate
issuance timestamp is included, so tampering with the subject or the
expiry is signature-detectable, but the issuance time is only implied by
the expiry minus the fixed TTL. -/
theorem token_payload_subject_and_expiry_only (env : Env) (now : Int) (u : Nat) :
    (CreateToken env now u).payload
      = [("user_id", ClaimValue.uintVal u),
         ("exp", ClaimValue.intVal (now + 24 * 3600))] :=
  createToken_payload_eq env now u

/-- C5: issuing a token for userID u and verifying it immediately (same
clock, same environment secret) succeeds and yields identity u: the
`user_id` claim round-trips unchanged through `CreateToken` and the
verifier's claim extraction. -/
theorem issue_verify_roundtrip (env : Env) (now : Int) (u : Nat) :
    VerifyToken (osGetenv env "JWT_SECRET") now (CreateToken env now u)
      = Except.ok u := by
  have hlt : ¬ (now + 24 * 3600 < now) := by omega
  simp [VerifyToken, createToken_payload_eq, CreateToken, getClaim, List.lookup, hlt]

/-- C7: every token produced by `CreateToken` at issuance time `now`
carries expiry `now + 24 * 3600`: the TTL is the fixed constant 24 hours
for every issued token. -/
theorem token_ttl_24h (env : Env) (now : Int) (u : Nat) :
    getClaim (CreateToken env now u).payload "exp"
      = some (ClaimValue.intVal (now + 24 * 3600)) := by
  rw [createToken_payload_eq]
  rfl

/-- C4: token verification never consults the user table, so for a token
the verifier accepts, the protected request proceeds to the handler, and
rewriting a row's `active` flag to false (the `DeactivateAccountHandler`
update) leaves the outcome of the whole protected request unchanged —
deactivation is invisible to verification until the token's natural
expiry. -/
theorem verification_ignores_active_flag (key : String) (now : Int)
    (tok : SignedToken) (db : List User) (id uid : Nat) :
    (VerifyToken key now tok = Except.ok uid →
      protectedGetUserName key now tok (setActive db id false)
        = GetUserNameHandler (setActive db id false) uid) ∧
    protectedGetUserName key now tok (setActive db id false)
      = protectedGetUserName key now tok db := by
  constructor
  · intro h
    simp [protectedGetUserName, h]
  · unfold protectedGetUserName
    cases VerifyToken key now tok with
    | error e => rfl
    | ok u => exact getUserName_setActive db id false u

/-- C4 (witness): a freshly issued token for user 1 verifies, and the
protected request on the deactivated table returns Ada's first name. -/
theorem verification_ignores_active_flag_witness :
    VerifyToken "s" 0 (CreateToken envWithSecret 0 1) = Except.ok 1 ∧
    protectedGetUserName "s" 0 (CreateToken envWithSecret 0 1)
        (setActive [demoUser] 1 false)
      = GetUserNameHandler (setActive [demoUser] 1 false) 1 :=
  ⟨by rfl,
   (verification_ignores_active_flag "s" 0 (CreateToken envWithSecret 0 1)
      [demoUser] 1 1).1 (by rfl)⟩

/-- C6: bcrypt verification accepts exactly the hashed plaintext: for
every plaintext p, `CompareHashAndPassword (GenerateFromPassword p) p`
is true, and for every q ≠ p the comparison is false (the case the login
handler reports as an incorrect-password error). -/
theorem bcrypt_verify_roundtrip (p q : String) (cost salt : Nat) (h : q ≠ p) :
    CompareHashAndPassword (GenerateFromPassword p cost salt) p = true ∧
    CompareHashAndPassword (GenerateFromPassword p cost salt) q = false := by
  constructor
  · simp [CompareHashAndPassword, GenerateFromPassword, bcryptKDF]
  · simp only [CompareHashAndPassword, GenerateFromPassword, bcryptKDF,
      beq_eq_false_iff_ne, ne_eq, Prod.mk.injEq, not_and, true_implies]
    intro hd
    exact absurd (String.ext hd) h

/-- C6 (witness): the spec scenario, hash "secret123" then verify
"secret123" (true) and "wrong" (false). -/
theorem bcrypt_verify_roundtrip_witness :
    CompareHashAndPassword (GenerateFromPassword "secret123" 10 0) "secret123"
      = true ∧
    CompareHashAndPassword (GenerateFromPassword "secret123" 10 0) "wrong"
      = false :=
  bcrypt_verify_roundtrip "secret123" "wrong" 10 0 (by decide)

/-- C8: both password-storing operations store only the cost-10 bcrypt
hash of the supplied plaintext: the row `RegisterHandler` appends stores
`GenerateFromPassword pw 10`, and a non-empty password in `UpdateProfile`
is stored as `GenerateFromPassword upd.password 10`; the cost factor is
the same fixed 10 at both call sites and the plaintext itself is never
written to the credential record. -/
theorem stored_passwords_cost10_hash_only (db : List User) (env : Env)
    (now : Int) (randVal salt assignedID : Nat)
    (fn ln email pw role : String) (user : User) (upd : ProfileUpdate) :
    (newUserRecord randVal salt assignedID fn ln email pw role).password
      = GenerateFromPassword pw 10 salt ∧
    (firstUserByEmail db email = none →
      (RegisterHandler db env now randVal salt assignedID fn ln email pw role).2
        = db ++ [newUserRecord randVal salt assignedID fn ln email pw role]) ∧
    (upd.password ≠ "" →
      (UpdateProfileApply user upd salt).password
        = GenerateFromPassword upd.password 10 salt) ∧
    (GenerateFromPassword pw 10 salt).cost = 10 := by
  refine ⟨rfl, ?_, ?_, rfl⟩
  · intro h
    simp [RegisterHandler, h]
  · intro h
    simp [UpdateProfileApply, h]

/-- C8 (witness): the theorem at an empty table and a password-only
profile update. -/
theorem stored_passwords_cost10_hash_only_witness :
    (RegisterHandler [] envWithSecret 0 3 0 1 "A" "B" "a@b.c" "pw" "customer").2
      = [] ++ [newUserRecord 3 0 1 "A" "B" "a@b.c" "pw" "customer"] ∧
    (UpdateProfileApply demoUser ⟨"", "", "", "npw"⟩ 0).password
      = GenerateFromPassword "npw" 10 0 :=
  ⟨((stored_passwords_cost10_hash_only [] envWithSecret 0 3 0 1
      "A" "B" "a@b.c" "pw" "customer" demoUser ⟨"", "", "", "npw"⟩).2.1 (by decide)),
   ((stored_passwords_cost10_hash_only [] envWithSecret 0 3 0 1
      "A" "B" "a@b.c" "pw" "customer" demoUser ⟨"", "", "", "npw"⟩).2.2.1 (by decide))⟩

/-- C9: `UpdateCartItemQuantityApply` sets the quantity to the requested
value and leaves every other field unchanged, in particular `Subtotal`
keeps its previous value; `AddToCartApply` always establishes
subtotal = quantity times price; hence after a quantity update the
subtotal can differ from quantity times price, as the concrete cart row
(3 copies at price 5, quantity changed to 4) shows. -/
theorem cart_update_preserves_subtotal (item : CartItem) (q : Nat)
    (existing : Option CartItem) (uid bid aq : Nat) (price : ℚ) :
    (UpdateCartItemQuantityApply item q).quantity = q ∧
    (UpdateCartItemQuantityApply item q).userID = item.userID ∧
    (UpdateCartItemQuantityApply item q).bookID = item.bookID ∧
    (UpdateCartItemQuantityApply item q).subtotal = item.subtotal ∧
    (AddToCartApply existing uid bid aq price).subtotal
      = ((AddToCartApply existing uid bid aq price).quantity : ℚ) * price ∧
    (UpdateCartItemQuantityApply (AddToCartApply none 1 2 3 5) 4).subtotal
      ≠ ((UpdateCartItemQuantityApply (AddToCartApply none 1 2 3 5) 4).quantity : ℚ)
          * 5 := by
  refine ⟨rfl, rfl, rfl, rfl, ?_, ?_⟩
  · cases existing with
    | none => rfl
    | some it => rfl
  · simp only [UpdateCartItemQuantityApply, AddToCartApply]
    norm_num

/-- C10: on the success path, `RegisterHandler` returns a token for the
GORM auto-generated primary key `newUser.ID`, whose `user_id` claim is
that key — not the separately stored random `UserID` column, which is
drawn as `rand.Intn(10000)`, hence always below 10000 and not unique. -/
theorem register_subject_is_auto_id (db : List User) (env : Env) (now : Int)
    (randVal salt assignedID : Nat) (fn ln email pw role : String)
    (h : firstUserByEmail db email = none) :
    (RegisterHandler db env now randVal salt assignedID fn ln email pw role).1
      = RegisterResult.success (CreateToken env now assignedID) ∧
    getClaim (CreateToken env now assignedID).payload "user_id"
      = some (ClaimValue.uintVal assignedID) ∧
    (newUserRecord randVal salt assignedID fn ln email pw role).userID
      = randVal % 10000 ∧
    randVal % 10000 < 10000 := by
  refine ⟨?_, ?_, rfl, Nat.mod_lt _ (by norm_num)⟩
  · simp [RegisterHandler, h]
  · rw [createToken_payload_eq]
    rfl

/-- C10 (witness): registration on an empty table with assigned primary
key 20000 issues a token whose subject is 20000, a value the random
`UserID` column (always below 10000) can never take. -/
theorem register_subject_is_auto_id_witness :
    (RegisterHandler [] envWithSecret 0 3 0 20000 "A" "B" "a@b.c" "pw" "customer").1
      = RegisterResult.success (CreateToken envWithSecret 0 20000) ∧
    getClaim (CreateToken envWithSecret 0 20000).payload "user_id"
      = some (ClaimValue.uintVal 20000) ∧
    (newUserRecord 3 0 20000 "A" "B" "a@b.c" "pw" "customer").userID = 3 % 10000 ∧
    3 % 10000 < 10000 :=
  register_subject_is_auto_id [] envWithSecret 0 3 0 20000
    "A" "B" "a@b.c" "pw" "customer" (by decide)

end Bookstore
